import Mathlib

/-!
Verification development for the cross-context message bus of the `aisolver`
repository.  The definitions below are a shallow embedding of the messaging
core in `src/js/content.js` (`setupCrossDomainCommunication`,
`setupFallbackCommunication`, `sendCrossDomainMessage`, `isPearsonOrigin`)
and of the diagnostics collector in `src/js/debugUtils.js`
(`recordMessageStat`, `detectMessageLoop`, `getMessageStatsReport`,
`analyzeMessageFlow`).  Time is modelled in milliseconds as `Nat`
(JS `Date.now()`); message ids, actions and peer identifiers are `String`s;
window origins and localStorage keys are `List Char` so that the character
level substring / pattern operations of the source can be modelled exactly.
JS `now - t < w` on possibly-larger `t` agrees with `Nat` truncated
subtraction: a negative JS difference and a truncated-to-`0` difference are
both below the positive window `w`.
-/

/-- JS `String.prototype.includes`: `containsSub pat s` is true iff `pat`
occurs as a contiguous substring of `s`. -/
def containsSub (pat : List Char) : List Char → Bool
  | [] => pat.isEmpty
  | s@(_ :: rest) => pat.isPrefixOf s || containsSub pat rest

/-- The protocol source tag `'pearson_ai_solver'` stamped on every envelope. -/
def protocolTag : String := "pearson_ai_solver"

/-- Substring fast-checked by `isPearsonOrigin` (`origin.includes('mylab.pearson.com')`). -/
def mylabChars : List Char := "mylab.pearson.com".toList

/-- Substring fast-checked by `isPearsonOrigin` (`origin.includes('mylabmastering.pearson.com')`). -/
def mylabmasteringChars : List Char := "mylabmastering.pearson.com".toList

/-- The three domains of `PEARSON_DOMAIN_PATTERNS` in content.js. -/
def pearsonDomainList : List (List Char) :=
  ["pearson.com".toList, "pearsoncmg.com".toList, "pearsonmylabandmastering.com".toList]

/-- JS `RegExp.test` for a pattern of the shape `^https?:\/\/.*?\.?D$` used in
`PEARSON_DOMAIN_PATTERNS`: the whole string must consist of an `http://` or
`https://` scheme followed by anything ending in the literal characters of
`D` (the lazy `.*?` absorbs any characters and the `\.?` dot is optional, so
the remainder merely has to end with `D`). -/
def regexTestDomain (dom s : List Char) : Bool :=
  ("http://".toList.isPrefixOf s && dom.isSuffixOf (s.drop "http://".toList.length))
    || ("https://".toList.isPrefixOf s && dom.isSuffixOf (s.drop "https://".toList.length))

/-- `isPearsonOrigin` from `setupCrossDomainCommunication` in content.js:
substring fast-path for the two mylab hosts, equality with the context's own
origin, then the three `PEARSON_DOMAIN_PATTERNS` regexes. -/
def isPearsonOrigin (selfOrigin origin : List Char) : Bool :=
  containsSub mylabChars origin || containsSub mylabmasteringChars origin
    || (origin == selfOrigin)
    || pearsonDomainList.any (fun dom => regexTestDomain dom origin)

/-- Modelled from the spec's words for claim C6: an origin is trusted iff it
equals the current context's own origin, or it is an `http(s)` origin whose
host part is exactly one of the listed Pearson domains, or a dot-separated
subdomain of one of them (suffix wildcard). -/
def specTrustedOrigin (selfOrigin origin : List Char) : Bool :=
  (origin == selfOrigin)
    || ["http://".toList, "https://".toList].any (fun sch =>
         sch.isPrefixOf origin &&
           pearsonDomainList.any (fun dom =>
             origin.drop sch.length == dom
               || ('.' :: dom).isSuffixOf (origin.drop sch.length)))

/-- The caller-supplied part of a message (`data` in `sendCrossDomainMessage`):
the action tag plus the payload fields that actually occur in the source
(`enabled`, `hasQuestions`), the optional incoming hop path, and an optional
`replyTo` correlation id. -/
structure SendData where
  action : String
  enabled : Option Bool := none
  hasQuestions : Option Bool := none
  path : Option (List String) := none
  replyTo : Option String := none
deriving DecidableEq

/-- The recognized `options` of `sendCrossDomainMessage`.  The `callback`
function is modelled by the flag `hasCallback` (only its presence is ever
tested by the source before storing it in `pendingPings`). -/
structure SendOptions where
  retry : Bool := false
  retryCount : Nat := 1
  retryDelay : Nat := 500
  hasCallback : Bool := false
  skipDuplicateCheck : Bool := false
  skipRateLimiting : Bool := false
deriving DecidableEq

/-- The content fingerprint `JSON.stringify({action, enabled?, hasQuestions?})`
computed by `sendCrossDomainMessage` for duplicate-send suppression: only the
action and the two whitelisted payload fields take part, never the
messageId or timestamp. -/
structure MsgHash where
  action : String
  enabled : Option Bool
  hasQuestions : Option Bool
deriving DecidableEq

/-- Fingerprint of an outgoing message. -/
def msgHashOf (d : SendData) : MsgHash := ⟨d.action, d.enabled, d.hasQuestions⟩

/-- The wire envelope (conceptually the JSON object built in
`sendCrossDomainMessage`): `from` of the source is spelled `fromPeer`
because `from` is a Lean keyword. -/
structure Envelope where
  source : String
  action : String
  enabled : Option Bool
  hasQuestions : Option Bool
  messageId : Option String
  fromPeer : String
  timestamp : Nat
  path : Option (List String)
  replyTo : Option String
  fallback : Bool
deriving DecidableEq

/-- The per-context mutable globals of content.js:
`window.messageThrottleTimestamps`, `window.sentMessageIds`,
`window.sentMessageHashes`, `window.pendingPings`,
`window.receivedMessageIds` and `window.storageLastSentTimes`.
JS objects are modelled as association lists preserving key insertion
order. -/
structure BusState where
  messageThrottleTimestamps : List (String × Nat) := []
  sentMessageIds : List String := []
  sentMessageHashes : List (MsgHash × Nat) := []
  pendingPings : List (String × Nat) := []
  receivedMessageIds : List String := []
  storageLastSentTimes : List (String × Nat) := []
deriving DecidableEq

/-- The state of a freshly initialized context. -/
def emptyBus : BusState := {}

/-- Association-list lookup (JS `obj[key]`, `undefined` as `none`). -/
def lookupA {κ : Type} [BEq κ] (l : List (κ × Nat)) (k : κ) : Option Nat :=
  (l.find? (fun p => p.1 == k)).map (fun p => p.2)

/-- Association-list lookup with the `|| 0` default used by the source. -/
def lookupAD {κ : Type} [BEq κ] (l : List (κ × Nat)) (k : κ) : Nat :=
  (lookupA l k).getD 0

/-- Association-list update (JS `obj[key] = v`: in-place update of an existing
key, insertion order preserved; a fresh key is appended). -/
def setA {κ : Type} [BEq κ] (l : List (κ × Nat)) (k : κ) (v : Nat) : List (κ × Nat) :=
  if l.any (fun p => p.1 == k) then
    l.map (fun p => if p.1 == k then (k, v) else p)
  else l ++ [(k, v)]

/-- Association-list deletion (JS `delete obj[key]`). -/
def eraseA {κ : Type} [BEq κ] (l : List (κ × Nat)) (k : κ) : List (κ × Nat) :=
  l.filter (fun p => !(p.1 == k))

/-- JS `list.slice(-n)` applied after a push when the bound is exceeded. -/
def keepLast (n : Nat) (l : List String) : List String :=
  if l.length > n then l.drop (l.length - n) else l

/-- JS `data.action || 'unknown'` (the empty string is falsy). -/
def actionKeyOf (a : String) : String := if a = "" then "unknown" else a

/-- The duplicate-content test of `sendCrossDomainMessage`: a recorded
fingerprint timestamp is consulted only when it is truthy (nonzero) and the
hit counts only when it is younger than the 2000ms suppression window. -/
def hashRecent (l : List (MsgHash × Nat)) (h : MsgHash) (now : Nat) : Bool :=
  match lookupA l h with
  | some t => !(t == 0) && decide (now - t < 2000)
  | none => false

/-- The envelope posted on the primary (postMessage) channel: metadata is
stamped on and the local peer identifier is appended to a fresh copy of the
incoming hop path. -/
def primaryEnvelope (selfDomain : String) (d : SendData) (now : Nat) (freshId : String) :
    Envelope :=
  { source := protocolTag, action := d.action, enabled := d.enabled,
    hasQuestions := d.hasQuestions, messageId := some freshId, fromPeer := selfDomain,
    timestamp := now, path := some ((d.path.getD []) ++ [selfDomain]),
    replyTo := d.replyTo, fallback := false }

/-- The options the retry timer of `sendCrossDomainMessage` passes to the
re-invocation: one fewer attempt, duplicate checks and rate limiting both
skipped. -/
def retryOptions (o : SendOptions) : SendOptions :=
  { retry := true, retryCount := o.retryCount - 1, retryDelay := o.retryDelay,
    hasCallback := o.hasCallback, skipDuplicateCheck := true, skipRateLimiting := true }

/-- Everything a call of `sendCrossDomainMessage` produces: the new global
state, the returned value (`messageId` or `null`), the envelope posted on the
primary channel (if any), the scheduled retry re-invocation (options and
delay, if any), and the scheduled `pendingPings` cleanup (entry id and
absolute fire time, if any). -/
structure SendResult where
  state : BusState
  result : Option String
  posted : Option Envelope
  retrySched : Option (SendOptions × Nat)
  pingCleanup : Option (String × Nat)
deriving DecidableEq

/-- `window.sendCrossDomainMessage` from `setupCrossDomainCommunication`
(the primary-channel send): throttle check, throttle-timestamp update,
content-fingerprint duplicate check, fingerprint record, sent-id record and
trim, stale-fingerprint cleanup, `pendingPings` registration for pings with a
callback (cleanup scheduled 5000ms later), envelope construction and posting,
and retry scheduling.  `now` is the call time and `freshId` the generated
`msg_${Date.now()}_${random}` identifier. -/
def sendCrossDomainMessage (selfDomain : String) (st : BusState) (d : SendData)
    (opts : SendOptions) (now : Nat) (freshId : String) : SendResult :=
  let actionKey := actionKeyOf d.action
  let lastSentTime := lookupAD st.messageThrottleTimestamps actionKey
  if !opts.skipRateLimiting && decide (now - lastSentTime < 500) then
    ⟨st, none, none, none, none⟩
  else
    let st1 := { st with
      messageThrottleTimestamps := setA st.messageThrottleTimestamps actionKey now }
    let h := msgHashOf d
    if !opts.skipDuplicateCheck && hashRecent st1.sentMessageHashes h now then
      ⟨st1, none, none, none, none⟩
    else
      let hashes1 := setA st1.sentMessageHashes h now
      let ids1 := keepLast 100 (st1.sentMessageIds ++ [freshId])
      let hashes2 := hashes1.filter (fun p => !decide (now - p.2 > 10000))
      let isPing := d.action == "ping" && opts.hasCallback
      let pendings := if isPing then setA st1.pendingPings freshId now else st1.pendingPings
      let cleanup := if isPing then some (freshId, now + 5000) else none
      let retrySched := if opts.retry && decide (opts.retryCount > 0)
        then some (retryOptions opts, opts.retryDelay) else none
      let stOut := { st1 with sentMessageHashes := hashes2, sentMessageIds := ids1, pendingPings := pendings }
      ⟨stOut, some freshId, some (primaryEnvelope selfDomain d now freshId), retrySched, cleanup⟩

/-- The action tags for which `setupFallbackCommunication` also uses the
localStorage fallback channel. -/
def fallbackActions : List String := ["analyzeQuestion", "updateStatus", "requestQuestionCheck"]

/-- The envelope written to localStorage by the fallback wrapper: the caller
data plus metadata, reusing the primary send's `messageId`; note that the
hop path of the caller data is passed through unchanged (no append). -/
def fallbackEnvelope (selfDomain : String) (d : SendData) (now : Nat) (mid : String) :
    Envelope :=
  { source := protocolTag, action := d.action, enabled := d.enabled,
    hasQuestions := d.hasQuestions, messageId := some mid, fromPeer := selfDomain,
    timestamp := now, path := d.path, replyTo := d.replyTo, fallback := true }

/-- Result of the wrapped send installed by `setupFallbackCommunication`:
as `SendResult`, plus the localStorage write (key and envelope), if any. -/
structure FallbackSendResult where
  state : BusState
  result : Option String
  posted : Option Envelope
  storagePosted : Option (List Char × Envelope)
  retrySched : Option (SendOptions × Nat)
  pingCleanup : Option (String × Nat)
deriving DecidableEq

/-- The wrapped `window.sendCrossDomainMessage` after
`setupFallbackCommunication` replaces it: the original send runs first; the
localStorage fallback is used only when that send returned a messageId, only
for the configured important actions, and at most once per action per 2000ms
window. -/
def sendWithFallback (selfDomain : String) (st : BusState) (d : SendData)
    (opts : SendOptions) (now : Nat) (freshId : String) (storageKey : List Char) :
    FallbackSendResult :=
  let r := sendCrossDomainMessage selfDomain st d opts now freshId
  match r.result with
  | none => ⟨r.state, none, r.posted, none, r.retrySched, r.pingCleanup⟩
  | some mid =>
    if !(fallbackActions.contains d.action) then
      ⟨r.state, some mid, r.posted, none, r.retrySched, r.pingCleanup⟩
    else
      let actionKey := actionKeyOf d.action
      let lastTime := lookupAD r.state.storageLastSentTimes actionKey
      if now - lastTime < 2000 then
        ⟨r.state, some mid, r.posted, none, r.retrySched, r.pingCleanup⟩
      else
        let st2 := { r.state with
          storageLastSentTimes := setA r.state.storageLastSentTimes actionKey now }
        ⟨st2, some mid, r.posted, some (storageKey, fallbackEnvelope selfDomain d now mid),
          r.retrySched, r.pingCleanup⟩

/-- Outcome of the window `'message'` listener on one inbound event. -/
inductive RecvOutcome where
  | dropOrigin
  | dropNotOurs
  | dropDuplicate
  | dropLoop
  | dropEcho
  | dispatched (action : String)
deriving DecidableEq

/-- Result of the window `'message'` listener: new global state, outcome, and
the number of pending-ping callbacks invoked during dispatch. -/
structure RecvResult where
  state : BusState
  outcome : RecvOutcome
  invoked : Nat
deriving DecidableEq

/-- The receive-side dedup record update: a present messageId is appended to
`window.receivedMessageIds`, trimmed to the most recent 100. -/
def recordReceived (st : BusState) (mid : Option String) : BusState :=
  match mid with
  | some m => { st with receivedMessageIds := keepLast 100 (st.receivedMessageIds ++ [m]) }
  | none => st

/-- The receive-side dedup test: `data.messageId && receivedMessageIds.includes(...)`. -/
def isDupReceived (st : BusState) (mid : Option String) : Bool :=
  match mid with
  | some m => st.receivedMessageIds.contains m
  | none => false

/-- The loop rejection of the `'message'` listener: it fires only when the
hop path is longer than 5, and blocks only when the receiving context's own
peer identifier occurs at least 3 times in the path. -/
def loopDetectedRecv (selfDomain : String) (path : Option (List String)) : Bool :=
  match path with
  | some p => decide (p.length > 5) && decide (p.count selfDomain ≥ 3)
  | none => false

/-- The echo guard of the `'message'` listener: a message from our own peer
identifier with a truthy timestamp younger than 1000ms whose id is in our
sent-id list. -/
def isEchoOfOwn (selfDomain : String) (st : BusState) (env : Envelope) (now : Nat) : Bool :=
  (env.fromPeer == selfDomain) && !(env.timestamp == 0) && decide (now - env.timestamp < 1000)
    && (match env.messageId with
        | some m => st.sentMessageIds.contains m
        | none => false)

/-- The `case 'pong'` branch of the dispatch switch: a matching
`pendingPings[replyTo]` entry has its callback invoked and is deleted;
without a matching entry nothing happens. -/
def dispatchPong (st : BusState) (env : Envelope) : BusState × Nat :=
  if env.action == "pong" then
    match env.replyTo with
    | some r =>
      match lookupA st.pendingPings r with
      | some _ => ({ st with pendingPings := eraseA st.pendingPings r }, 1)
      | none => (st, 0)
    | none => (st, 0)
  else (st, 0)

/-- The window `'message'` listener of `setupCrossDomainCommunication`:
origin check, protocol-tag check, messageId dedup (record before any later
drop), loop rejection, echo guard, then dispatch (with the `pong` case acting
on `pendingPings`). -/
def processMessage (selfDomain : String) (selfOrigin : List Char) (st : BusState)
    (origin : List Char) (env : Envelope) (now : Nat) : RecvResult :=
  if !(isPearsonOrigin selfOrigin origin) then ⟨st, .dropOrigin, 0⟩
  else if !(env.source == protocolTag) then ⟨st, .dropNotOurs, 0⟩
  else if isDupReceived st env.messageId then ⟨st, .dropDuplicate, 0⟩
  else if loopDetectedRecv selfDomain env.path then
    ⟨recordReceived st env.messageId, .dropLoop, 0⟩
  else if isEchoOfOwn selfDomain (recordReceived st env.messageId) env now then
    ⟨recordReceived st env.messageId, .dropEcho, 0⟩
  else
    ⟨(dispatchPong (recordReceived st env.messageId) env).1, .dispatched env.action,
      (dispatchPong (recordReceived st env.messageId) env).2⟩

/-- The key marker `'pearson_ai_solver_msg_'` of the localStorage channel. -/
def storageKeyTag : List Char := "pearson_ai_solver_msg_".toList

/-- The closure-local state of `setupFallbackCommunication`'s `'storage'`
listener: the processed-signature set (insertion ordered) and the per-action
receive rate-limit timestamps.  These live in the listener's closure and are
disjoint from the `BusState` globals used by the postMessage channel. -/
structure StorageState where
  processedStorageMessages : List String := []
  lastStorageMessageTimes : List (String × Nat) := []
deriving DecidableEq

/-- The state of a freshly installed `'storage'` listener. -/
def emptyStorage : StorageState := {}

/-- Outcome of the `'storage'` listener on one inbound event. -/
inductive StorageOutcome where
  | notOurKey
  | notOurs
  | dupSignature
  | rateLimited
  | tooManyHops
  | dispatched (action : String)
  | unhandled (action : String)
deriving DecidableEq

/-- The dedup signature `${data.action}_${data.messageId || event.key}` of the
`'storage'` listener (an empty or missing messageId is falsy, so the key is
used). -/
def storageSignature (env : Envelope) (key : List Char) : String :=
  env.action ++ "_" ++
    (match env.messageId with
     | some m => if m == "" then String.mk key else m
     | none => String.mk key)

/-- The actions the `'storage'` listener's switch actually handles. -/
def storageHandledActions : List String :=
  ["analyzeQuestion", "updateStatus", "requestQuestionCheck"]

/-- The dispatch switch of the `'storage'` listener: only three actions have
cases; any other action falls through the switch without effect. -/
def dispatchStorage (st : StorageState) (env : Envelope) : StorageState × StorageOutcome :=
  if storageHandledActions.contains env.action then (st, .dispatched env.action)
  else (st, .unhandled env.action)

/-- Recording a processed signature in the `'storage'` listener's dedup set
(appended, trimmed to the most recent 100). -/
def recordStorageSig (st : StorageState) (sig : String) : StorageState :=
  { st with processedStorageMessages := keepLast 100 (st.processedStorageMessages ++ [sig]) }

/-- Updating the `'storage'` listener's per-action receive rate-limit
timestamp. -/
def bumpStorageTime (st : StorageState) (action : String) (now : Nat) : StorageState :=
  { st with lastStorageMessageTimes := setA st.lastStorageMessageTimes (actionKeyOf action) now }

/-- The `'storage'` listener of `setupFallbackCommunication`: key-marker
check, protocol-tag check, signature dedup (recorded before the later
checks), per-action receive rate limit (1000ms), hop-count bound (path longer
than 3 is dropped), then the dispatch switch.  The rate-limit lookup reads
`lastStorageMessageTimes`, which the signature recording does not touch. -/
def processStorageMessage (st : StorageState) (key : List Char) (env : Envelope)
    (now : Nat) : StorageState × StorageOutcome :=
  if !(storageKeyTag.isPrefixOf key) then (st, .notOurKey)
  else if !(env.source == protocolTag) then (st, .notOurs)
  else if st.processedStorageMessages.contains (storageSignature env key) then
    (st, .dupSignature)
  else if now - lookupAD st.lastStorageMessageTimes (actionKeyOf env.action) < 1000 then
    (recordStorageSig st (storageSignature env key), .rateLimited)
  else
    match env.path with
    | some p =>
      if p.length > 3 then
        (bumpStorageTime (recordStorageSig st (storageSignature env key)) env.action now,
          .tooManyHops)
      else
        dispatchStorage
          (bumpStorageTime (recordStorageSig st (storageSignature env key)) env.action now) env
    | none =>
      dispatchStorage
        (bumpStorageTime (recordStorageSig st (storageSignature env key)) env.action now) env

/-- Firing (or not) the scheduled `pendingPings` cleanup of a send at wall
time `t`: the timer deletes the entry when its fire time has been reached
(the deletion is idempotent, matching the `if (window.pendingPings[id])`
re-check at fire time). -/
def runPingCleanup (st : BusState) (c : Option (String × Nat)) (t : Nat) : BusState :=
  match c with
  | some x => if x.2 ≤ t then { st with pendingPings := eraseA st.pendingPings x.1 } else st
  | none => st

/-- One `(category, action)` cell of the debugUtils message statistics:
a running count and the retained timestamps (at most the most recent 50). -/
structure ActionStat where
  count : Nat := 0
  timestamps : List Nat := []
deriving DecidableEq

/-- Statistics are keyed by `(category, action)`. -/
abbrev StatKey := String × String

/-- The timestamp push of `recordMessageStat`: append, then `shift()` once
when more than 50 are retained. -/
def recordTimestamps (ts : List Nat) (now : Nat) : List Nat :=
  let ts1 := ts ++ [now]
  if ts1.length > 50 then ts1.drop 1 else ts1

/-- `recordMessageStat` from debugUtils.js, restricted to the count and
timestamp bookkeeping that the report and flow analysis read. -/
def recordMessageStat (s : List (StatKey × ActionStat)) (category action : String)
    (now : Nat) : List (StatKey × ActionStat) :=
  if s.any (fun p => p.1 == (category, action)) then
    s.map (fun p => if p.1 == (category, action) then
      (p.1, ⟨p.2.count + 1, recordTimestamps p.2.timestamps now⟩) else p)
  else s ++ [((category, action), ⟨1, [now]⟩)]

/-- Read one cell of the statistics (a missing cell is empty). -/
def statOf (s : List (StatKey × ActionStat)) (k : StatKey) : ActionStat :=
  ((s.find? (fun p => p.1 == k)).map (fun p => p.2)).getD {}

/-- The `recentMessages` filter of `getMessageStatsReport`: timestamps
younger than 5000ms. -/
def recentCount (st : ActionStat) (now : Nat) : Nat :=
  (st.timestamps.filter (fun t => decide (now - t < 5000))).length

/-- The per-cell message rate of `getMessageStatsReport`:
`recentMessages.length / 5` messages per second. -/
def messageRate (st : ActionStat) (now : Nat) : ℚ :=
  (recentCount st now : ℚ) / 5

/-- The qualitative flow ratings of `analyzeMessageFlow`. -/
inductive FlowRating where
  | normal
  | concerning
  | problematic
deriving DecidableEq

/-- One step of the rate scan in `analyzeMessageFlow`: a cell with rate above
5/s overwrites the rating with `concerning`, above 10/s with `problematic`;
other cells leave it unchanged. -/
def ratingStep (r : FlowRating) (rate : ℚ) : FlowRating :=
  if rate > 5 then (if rate > 10 then .problematic else .concerning) else r

/-- The `flowRating` computed by `analyzeMessageFlow`: the rate scan over all
cells (in iteration order, later assignments overwriting earlier ones)
followed by the circular-path check, which forces `problematic` when more
than 5 circular paths are recorded.  The send/receive imbalance checks push
patterns and recommendations but never touch the rating. -/
def analyzeFlowRating (s : List (StatKey × ActionStat)) (loopCount : Nat) (now : Nat) :
    FlowRating :=
  let base := s.foldl (fun r p => ratingStep r (messageRate p.2 now)) .normal
  if loopCount > 5 then .problematic else base

/-- `detectMessageLoop` from debugUtils.js: paths shorter than 3 are never
loops; otherwise a loop is any peer identifier occurring at least 3 times. -/
def detectMessageLoop (path : List String) : Bool :=
  if path.length < 3 then false
  else path.any (fun d => decide (path.count d ≥ 3))

/-! ### Helper lemmas about the embedded operations -/

/-- `containsSub` decides substring containment. -/
theorem containsSub_iff (pat s : List Char) : containsSub pat s = true ↔ pat <:+: s := by
  induction s with
  | nil => simp [containsSub, List.isEmpty_iff]
  | cons a rest ih =>
    simp [containsSub, List.infix_cons_iff, ih, List.isPrefixOf_iff_prefix]

/-- A just-pushed element survives the trim to the most recent `n ≥ 1`. -/
theorem mem_keepLast_append (n : Nat) (hn : 1 ≤ n) (l : List String) (x : String) :
    x ∈ keepLast n (l ++ [x]) := by
  unfold keepLast
  split
  · rename_i hlen
    have hk : (l ++ [x]).length - n ≤ l.length := by
      simp only [List.length_append, List.length_singleton] at *
      omega
    rw [List.drop_append_of_le_length hk]
    simp
  · simp

/-- Trimming only drops elements: membership after the trim implies membership
before it. -/
theorem mem_of_mem_keepLast (n : Nat) (l : List String) (x : String)
    (h : x ∈ keepLast n l) : x ∈ l := by
  unfold keepLast at h
  split at h
  · exact List.drop_subset _ _ h
  · exact h

/-- After a JS `delete obj[key]`, the key is absent. -/
theorem lookupA_eraseA {κ : Type} [BEq κ] (l : List (κ × Nat)) (k : κ) :
    lookupA (eraseA l k) k = none := by
  have hfind : List.find? (fun p => p.1 == k) (eraseA l k) = none := by
    rw [List.find?_eq_none]
    intro x hx
    rw [eraseA] at hx
    have hmem := (List.mem_filter.mp hx).2
    simpa using hmem
  simp [lookupA, hfind]

/-- A rate-limited call of `sendCrossDomainMessage` returns `null` and leaves
every global (including the throttle table) unchanged. -/
theorem send_throttled (selfD : String) (st : BusState) (d : SendData) (opts : SendOptions)
    (t : Nat) (id : String) (hskip : opts.skipRateLimiting = false)
    (h : t - lookupAD st.messageThrottleTimestamps (actionKeyOf d.action) < 500) :
    sendCrossDomainMessage selfD st d opts t id = ⟨st, none, none, none, none⟩ := by
  unfold sendCrossDomainMessage
  simp [hskip, h]

/-- With both skip flags set (exactly the options of a retry re-invocation),
a send always returns its fresh id and posts the corresponding envelope. -/
theorem send_skip_both (selfD : String) (st : BusState) (d : SendData) (opts : SendOptions)
    (t : Nat) (id : String) (h1 : opts.skipRateLimiting = true)
    (h2 : opts.skipDuplicateCheck = true) :
    (sendCrossDomainMessage selfD st d opts t id).result = some id ∧
    (sendCrossDomainMessage selfD st d opts t id).posted
      = some (primaryEnvelope selfD d t id) := by
  unfold sendCrossDomainMessage
  simp [h1, h2]

/-- A first send from a fresh context (empty globals): provided the rate
limiter passes (skipped, or the clock is at least 500, the throttle default
being 0), the send succeeds and every component of the result is determined. -/
theorem sendFromEmpty (selfD : String) (d : SendData) (opts : SendOptions) (t : Nat)
    (id : String) (h : opts.skipRateLimiting = true ∨ 500 ≤ t) :
    sendCrossDomainMessage selfD emptyBus d opts t id =
      ⟨⟨[(actionKeyOf d.action, t)], [id], [(msgHashOf d, t)],
          (if (d.action == "ping" && opts.hasCallback) = true then [(id, t)] else []), [], []⟩,
        some id, some (primaryEnvelope selfD d t id),
        (if (opts.retry && decide (opts.retryCount > 0)) = true
          then some (retryOptions opts, opts.retryDelay) else none),
        (if (d.action == "ping" && opts.hasCallback) = true
          then some (id, t + 5000) else none)⟩ := by
  have h10 : ¬ (t - t > 10000) := by omega
  unfold sendCrossDomainMessage
  rcases h with h | h
  · simp [h, emptyBus, lookupAD, lookupA, setA, keepLast, hashRecent, h10]
  · have h5 : ¬ (t - 0 < 500) := by omega
    simp [emptyBus, lookupAD, lookupA, setA, keepLast, hashRecent, h, h5, h10]

/-- The `pong` case is a no-op on a message that is not a pong. -/
theorem dispatchPong_of_not_pong (st : BusState) (env : Envelope)
    (h : (env.action == "pong") = false) : dispatchPong st env = (st, 0) := by
  unfold dispatchPong
  simp [h]

/-- No handler other than the `pong` case ever invokes a pending-ping
callback. -/
theorem invoked_zero_of_not_pong (selfD : String) (selfO : List Char) (st : BusState)
    (origin : List Char) (env : Envelope) (now : Nat) (h : env.action ≠ "pong") :
    (processMessage selfD selfO st origin env now).invoked = 0 := by
  have hb : (env.action == "pong") = false := by simpa using h
  unfold processMessage
  split
  · rfl
  split
  · rfl
  split
  · rfl
  split
  · rfl
  split
  · rfl
  show (dispatchPong (recordReceived st env.messageId) env).2 = 0
  rw [dispatchPong_of_not_pong _ _ hb]

/-- Dispatch leaves the state untouched when there are no pending pings. -/
theorem dispatchPong_fst_of_no_pending (st : BusState) (env : Envelope)
    (h : st.pendingPings = []) : (dispatchPong st env).1 = st := by
  unfold dispatchPong
  split
  · cases henv : env.replyTo with
    | none => rfl
    | some r => simp [lookupA, h]
  · rfl

/-! ### Scenario constants used by several concrete runs -/

/-- A trusted origin used in concrete runs (substring fast-path hit). -/
def demoSelfOrigin : List Char := "https://mylab.pearson.com".toList

/-- An inbound envelope whose path `[A, B, A, C, A]` contains `A` three times
but has length exactly 5. -/
def loopPathEnv : Envelope :=
  ⟨"pearson_ai_solver", "updateStatus", none, none, some "m1", "B", 900,
    some ["A", "B", "A", "C", "A"], none, false⟩

/-- An inbound envelope whose path has length 6 with `A` occurring 3 times. -/
def loopPathEnv6 : Envelope :=
  ⟨"pearson_ai_solver", "updateStatus", none, none, some "m2", "B", 900,
    some ["A", "B", "A", "C", "A", "B"], none, false⟩

/-! ### Claim C2 -/

/-- Claim C2 (counterexample): the diagnostics helper `detectMessageLoop`
does flag the path `[A, B, A, C, A]` (A occurs 3 times), yet the receive
pipeline dispatches such an envelope to its handler at receiver `A` instead
of rejecting it as a loop, because the listener's loop check only runs for
paths longer than 5 entries.  This refutes the claim that every envelope
whose path contains some peer identifier 3 or more times is rejected on
receive. -/
theorem c2_counterexample :
    detectMessageLoop ["A", "B", "A", "C", "A"] = true ∧
    (processMessage "A" demoSelfOrigin emptyBus demoSelfOrigin loopPathEnv 1000).outcome
      = RecvOutcome.dispatched "updateStatus" := by decide

/-- With the loop test false, the `'message'` listener never reports a loop
rejection. -/
theorem processMessage_no_dropLoop (selfD : String) (selfO : List Char) (st : BusState)
    (origin : List Char) (env : Envelope) (now : Nat)
    (hl : loopDetectedRecv selfD env.path = false) :
    (processMessage selfD selfO st origin env now).outcome ≠ RecvOutcome.dropLoop := by
  unfold processMessage
  split
  · simp
  split
  · simp
  split
  · simp
  split
  · rename_i hcontra
    rw [hl] at hcontra
    exact absurd hcontra (by simp)
  split
  · simp
  · simp

/-- With the earlier checks passing and the loop test true, the `'message'`
listener rejects the envelope as a loop (after recording its id). -/
theorem processMessage_dropLoop (selfD : String) (selfO : List Char) (st : BusState)
    (origin : List Char) (env : Envelope) (now : Nat)
    (horig : isPearsonOrigin selfO origin = true)
    (hsrc : env.source = protocolTag)
    (hdup : isDupReceived st env.messageId = false)
    (hl : loopDetectedRecv selfD env.path = true) :
    processMessage selfD selfO st origin env now
      = ⟨recordReceived st env.messageId, RecvOutcome.dropLoop, 0⟩ := by
  unfold processMessage
  simp [horig, hsrc, hdup, hl]

/-- Claim C2 (amended): on receive (trusted origin, protocol-tagged envelope,
fresh messageId), an envelope is rejected as a loop precisely when its path
is longer than 5 entries and the receiving context's own peer identifier
occurs at least 3 times in it; occurrence counts of other peers are
irrelevant and shorter paths — including `[A, B, A, C, A]` — are never
rejected as loops. -/
theorem c2_amended (selfD : String) (selfO origin : List Char)
    (st : BusState) (env : Envelope) (now : Nat)
    (horig : isPearsonOrigin selfO origin = true)
    (hsrc : env.source = protocolTag)
    (hdup : isDupReceived st env.messageId = false) :
    (processMessage selfD selfO st origin env now).outcome = RecvOutcome.dropLoop
      ↔ ∃ p, env.path = some p ∧ 5 < p.length ∧ 3 ≤ p.count selfD := by
  have hloop : loopDetectedRecv selfD env.path = true ↔
      ∃ p, env.path = some p ∧ 5 < p.length ∧ 3 ≤ p.count selfD := by
    cases hp : env.path with
    | none => simp [loopDetectedRecv]
    | some p => simp [loopDetectedRecv]
  rw [← hloop]
  by_cases hl : loopDetectedRecv selfD env.path = true
  · rw [processMessage_dropLoop selfD selfO st origin env now horig hsrc hdup hl]
    simp [hl]
  · exact iff_of_false
      (processMessage_no_dropLoop selfD selfO st origin env now (by simpa using hl)) hl

/-- Witness for the amended claim C2: at receiver `A`, a path of length 6
containing `A` three times is rejected as a loop. -/
theorem c2_amended_witness :
    (processMessage "A" demoSelfOrigin emptyBus demoSelfOrigin loopPathEnv6 1000).outcome
      = RecvOutcome.dropLoop :=
  (c2_amended "A" demoSelfOrigin demoSelfOrigin emptyBus loopPathEnv6 1000
      (by decide) rfl (by decide)).mpr
    ⟨["A", "B", "A", "C", "A", "B"], rfl, by decide, by decide⟩

/-! ### Claim C3 -/

/-- Claim C3 (counterexample): after an allowed send of `updateStatus` at
t = 1000, a second send of the same action 600ms later — more than 500ms
after the last allowed send, with no skip flags — still returns `null`,
because the content-fingerprint suppression (2000ms window) rejects it.
This refutes the claim that any call made more than 500ms after the last
allowed send of the action succeeds. -/
theorem c3_counterexample :
    (sendCrossDomainMessage "mylab" emptyBus { action := "updateStatus" } {} 1000 "m1").result
      = some "m1" ∧
    (sendCrossDomainMessage "mylab"
        (sendCrossDomainMessage "mylab" emptyBus { action := "updateStatus" } {} 1000 "m1").state
        { action := "updateStatus" } {} 1600 "m2").result = none := by decide

/-- Claim C3 (amended): starting from a fresh context, a first send of an
action at `t1 ≥ 500` succeeds; a second send of the same action within 500ms
returns `null` and transmits nothing (and leaves all state unchanged); and a
third send of the same data (no skip flags) succeeds exactly when at least
2000ms have passed since the first send — the 500ms throttle alone is not
sufficient, because the content-fingerprint suppression also has to
expire. -/
theorem c3_amended (d : SendData) (t1 t2 t3 : Nat) (id1 id2 id3 : String)
    (h1 : 500 ≤ t1) (h2 : t2 - t1 < 500) :
    (sendCrossDomainMessage "mylab" emptyBus d {} t1 id1).result = some id1 ∧
    sendCrossDomainMessage "mylab"
        (sendCrossDomainMessage "mylab" emptyBus d {} t1 id1).state d {} t2 id2
      = ⟨(sendCrossDomainMessage "mylab" emptyBus d {} t1 id1).state, none, none, none, none⟩ ∧
    ((sendCrossDomainMessage "mylab"
        (sendCrossDomainMessage "mylab"
          (sendCrossDomainMessage "mylab" emptyBus d {} t1 id1).state d {} t2 id2).state
        d {} t3 id3).result = some id3 ↔ 2000 ≤ t3 - t1) := by
  have hL1 := sendFromEmpty "mylab" d {} t1 id1 (Or.inr h1)
  rw [hL1]
  simp only [Bool.and_false, Bool.false_eq_true, if_false]
  have hlook : lookupAD [(actionKeyOf d.action, t1)] (actionKeyOf d.action) = t1 := by
    simp [lookupAD, lookupA]
  have hthr : sendCrossDomainMessage "mylab"
      ⟨[(actionKeyOf d.action, t1)], [id1], [(msgHashOf d, t1)], [], [], []⟩ d {} t2 id2
      = ⟨⟨[(actionKeyOf d.action, t1)], [id1], [(msgHashOf d, t1)], [], [], []⟩,
          none, none, none, none⟩ := by
    apply send_throttled
    · rfl
    · rw [hlook]
      omega
  refine ⟨by trivial, hthr, ?_⟩
  rw [hthr]
  have ht1 : ¬ (t1 = 0) := by omega
  have hlk : lookupA [(msgHashOf d, t1)] (msgHashOf d) = some t1 := by
    simp [lookupA]
  by_cases hc : 2000 ≤ t3 - t1
  · have h5 : ¬ (t3 - t1 < 500) := by omega
    have h20 : ¬ (t3 - t1 < 2000) := by omega
    have hnr : hashRecent [(msgHashOf d, t1)] (msgHashOf d) t3 = false := by
      unfold hashRecent
      rw [hlk]
      simp [h20]
    unfold sendCrossDomainMessage
    simp [lookupAD, lookupA, hnr, h5, hc]
  · have h20 : t3 - t1 < 2000 := by omega
    by_cases h5 : t3 - t1 < 500
    · rw [send_throttled "mylab" _ d {} t3 id3 rfl (by rw [hlook]; omega)]
      simp [hc]
    · have hhr : hashRecent [(msgHashOf d, t1)] (msgHashOf d) t3 = true := by
        unfold hashRecent
        rw [hlk]
        simp only [Bool.and_eq_true, Bool.not_eq_true', beq_eq_false_iff_ne, ne_eq,
          decide_eq_true_eq]
        exact ⟨ht1, h20⟩
      unfold sendCrossDomainMessage
      simp [lookupAD, lookupA, hhr, h5, hc]

/-- Witness for the amended claim C3: concrete run at t = 1000, 1300, 3000
(the third send succeeds since 2000ms have passed). -/
theorem c3_amended_witness :
    (sendCrossDomainMessage "mylab" emptyBus { action := "updateStatus" } {} 1000 "a").result
      = some "a" ∧
    sendCrossDomainMessage "mylab"
        (sendCrossDomainMessage "mylab" emptyBus { action := "updateStatus" } {} 1000 "a").state
        { action := "updateStatus" } {} 1300 "b"
      = ⟨(sendCrossDomainMessage "mylab" emptyBus { action := "updateStatus" } {} 1000 "a").state,
          none, none, none, none⟩ ∧
    ((sendCrossDomainMessage "mylab"
        (sendCrossDomainMessage "mylab"
          (sendCrossDomainMessage "mylab" emptyBus { action := "updateStatus" } {} 1000 "a").state
          { action := "updateStatus" } {} 1300 "b").state
        { action := "updateStatus" } {} 3000 "c").result = some "c" ↔ 2000 ≤ 3000 - 1000) :=
  c3_amended { action := "updateStatus" } 1000 1300 3000 "a" "b" "c"
    (by decide) (by decide)

/-! ### Claim C4 -/

/-- Claim C4: from a fresh context, a first send of `(action, payload)` at
`t1 ≥ 500` yields a messageId; a second send of the same `(action, payload)`
within 2000ms on the content-suppression path (rate limiter bypassed so that
the fingerprint check is the deciding stage) yields `null` exactly when
`skipDuplicateCheck` is not set; and a plain second send (no flags at all)
within 2000ms always yields `null`. -/
theorem c4_content_suppression (d : SendData) (t1 t2 : Nat) (id1 id2 id3 : String) (b : Bool)
    (h1 : 500 ≤ t1) (h2 : t2 - t1 < 2000) :
    (sendCrossDomainMessage "mylab" emptyBus d {} t1 id1).result = some id1 ∧
    ((sendCrossDomainMessage "mylab" (sendCrossDomainMessage "mylab" emptyBus d {} t1 id1).state
        d { skipDuplicateCheck := b, skipRateLimiting := true } t2 id2).result
      = if b then some id2 else none) ∧
    (sendCrossDomainMessage "mylab" (sendCrossDomainMessage "mylab" emptyBus d {} t1 id1).state
        d {} t2 id3).result = none := by
  have hL1 := sendFromEmpty "mylab" d {} t1 id1 (Or.inr h1)
  rw [hL1]
  simp only [Bool.and_false, Bool.false_eq_true, if_false]
  have hlook : lookupAD [(actionKeyOf d.action, t1)] (actionKeyOf d.action) = t1 := by
    simp [lookupAD, lookupA]
  have ht1 : ¬ (t1 = 0) := by omega
  have hlk : lookupA [(msgHashOf d, t1)] (msgHashOf d) = some t1 := by
    simp [lookupA]
  have hhr : hashRecent [(msgHashOf d, t1)] (msgHashOf d) t2 = true := by
    unfold hashRecent
    rw [hlk]
    simp only [Bool.and_eq_true, Bool.not_eq_true', beq_eq_false_iff_ne, ne_eq,
      decide_eq_true_eq]
    exact ⟨ht1, h2⟩
  refine ⟨by trivial, ?_, ?_⟩
  · cases b with
    | false =>
      unfold sendCrossDomainMessage
      simp [lookupAD, lookupA, hhr]
    | true =>
      unfold sendCrossDomainMessage
      simp [lookupAD, lookupA, hhr]
  · by_cases h5 : t2 - t1 < 500
    · rw [send_throttled "mylab" _ d {} t2 id3 rfl (by rw [hlook]; omega)]
    · unfold sendCrossDomainMessage
      simp [lookupAD, lookupA, hhr, h5]

/-- Witness for claim C4: concrete run with `skipDuplicateCheck` set on the
second call (which therefore succeeds), at t = 1000 and t = 2000. -/
theorem c4_witness :
    (sendCrossDomainMessage "mylab" emptyBus { action := "updateStatus" } {} 1000 "m1").result
      = some "m1" ∧
    ((sendCrossDomainMessage "mylab"
        (sendCrossDomainMessage "mylab" emptyBus { action := "updateStatus" } {} 1000 "m1").state
        { action := "updateStatus" }
        { skipDuplicateCheck := true, skipRateLimiting := true } 2000 "m2").result
      = if true then some "m2" else none) ∧
    (sendCrossDomainMessage "mylab"
        (sendCrossDomainMessage "mylab" emptyBus { action := "updateStatus" } {} 1000 "m1").state
        { action := "updateStatus" } {} 2000 "m3").result = none :=
  c4_content_suppression { action := "updateStatus" } 1000 2000 "m1" "m2" "m3" true
    (by decide) (by decide)

/-! ### Claim C5 -/

/-- Claim C5 (counterexample): a send rejected by the content-duplicate
suppression returns `null` without recording its freshly generated messageId:
after an allowed send at t = 1000 recorded `m1`, a same-content send at
t = 1600 is rejected and the outgoing sent-ID set still contains only `m1` —
`m2` is not recorded, refuting "always record the new messageId ...
regardless". -/
theorem c5_counterexample :
    (sendCrossDomainMessage "mylab"
      (sendCrossDomainMessage "mylab" emptyBus { action := "updateStatus" } {} 1000 "m1").state
      { action := "updateStatus" } {} 1600 "m2").result = none ∧
    (sendCrossDomainMessage "mylab"
      (sendCrossDomainMessage "mylab" emptyBus { action := "updateStatus" } {} 1000 "m1").state
      { action := "updateStatus" } {} 1600 "m2").state.sentMessageIds = ["m1"] := by decide

/-- Claim C5 (amended): a call of `send` records its freshly generated
messageId in the outgoing sent-ID set exactly when the call is not rejected —
i.e. the messageId is recorded iff the call returns it; calls rejected by
rate limiting or by the content-duplicate suppression return `null` and
record nothing. -/
theorem c5_amended (selfD : String) (st : BusState) (d : SendData) (opts : SendOptions)
    (t : Nat) (id : String) (hfresh : id ∉ st.sentMessageIds) :
    ((sendCrossDomainMessage selfD st d opts t id).result).isSome = true ↔
      id ∈ (sendCrossDomainMessage selfD st d opts t id).state.sentMessageIds := by
  by_cases hA : (!opts.skipRateLimiting
      && decide (t - lookupAD st.messageThrottleTimestamps (actionKeyOf d.action) < 500)) = true
  · unfold sendCrossDomainMessage
    simp only [hA, if_true]
    simpa using hfresh
  · have hA' : (!opts.skipRateLimiting
        && decide (t - lookupAD st.messageThrottleTimestamps (actionKeyOf d.action) < 500))
          = false := by simpa using hA
    by_cases hB : (!opts.skipDuplicateCheck
        && hashRecent st.sentMessageHashes (msgHashOf d) t) = true
    · unfold sendCrossDomainMessage
      simp only [hA', Bool.false_eq_true, if_false, hB, if_true]
      simpa using hfresh
    · have hB' : (!opts.skipDuplicateCheck
          && hashRecent st.sentMessageHashes (msgHashOf d) t) = false := by simpa using hB
      unfold sendCrossDomainMessage
      simp only [hA', hB', Bool.false_eq_true, if_false]
      simp only [Option.isSome_some, true_iff]
      exact mem_keepLast_append 100 (by norm_num) _ _

/-- Witness for the amended claim C5: an accepted send records its id. -/
theorem c5_amended_witness :
    ((sendCrossDomainMessage "mylab" emptyBus { action := "updateStatus" } {} 1000 "w1").result).isSome
        = true ↔
      "w1" ∈ (sendCrossDomainMessage "mylab" emptyBus { action := "updateStatus" } {}
          1000 "w1").state.sentMessageIds :=
  c5_amended "mylab" emptyBus { action := "updateStatus" } {} 1000 "w1" (by decide)

/-! ### Claim C6 -/

/-- A scheme-plus-suffix regex branch holds iff the origin decomposes as the
scheme followed by a remainder that ends in the domain characters. -/
theorem schemeSplit (sch dom origin : List Char) :
    (sch.isPrefixOf origin && dom.isSuffixOf (origin.drop sch.length)) = true ↔
      ∃ rest, origin = sch ++ rest ∧ dom <:+ rest := by
  simp only [Bool.and_eq_true, List.isPrefixOf_iff_prefix, List.isSuffixOf_iff_suffix]
  constructor
  · rintro ⟨⟨rest, hr⟩, hs⟩
    refine ⟨rest, hr.symm, ?_⟩
    rwa [← hr, List.drop_left] at hs
  · rintro ⟨rest, hr, hs⟩
    subst hr
    exact ⟨⟨rest, rfl⟩, by rwa [List.drop_left]⟩

/-- Claim C6 (counterexample): the origin `https://evilpearson.com` — which
is not the context's own origin, not one of the three listed Pearson
domains, and not a dot-separated subdomain of any of them — is nevertheless
accepted by `isPearsonOrigin`, because the `\.?` in the allow-list regexes
makes the separating dot optional.  `specTrustedOrigin` is the predicate the
claim describes, and the two disagree here, refuting the "if and only if". -/
theorem c6_counterexample :
    isPearsonOrigin demoSelfOrigin "https://evilpearson.com".toList = true ∧
    specTrustedOrigin demoSelfOrigin "https://evilpearson.com".toList = false := by decide

/-- Claim C6 (amended): `isPearsonOrigin` accepts an origin iff it contains
`mylab.pearson.com` or `mylabmastering.pearson.com` as a substring anywhere,
equals the context's own origin, or starts with `http://` or `https://` with
the remainder merely ending in the characters of one of the three listed
domains (no dot separator required, so hosts like `evilpearson.com` are also
accepted); and every inbound message whose origin fails this test is dropped
with no state change and no processing. -/
theorem c6_amended :
    (∀ selfO origin : List Char, isPearsonOrigin selfO origin = true ↔
      (mylabChars <:+: origin ∨ mylabmasteringChars <:+: origin ∨ origin = selfO ∨
        ∃ dom ∈ pearsonDomainList,
          ((∃ rest, origin = "http://".toList ++ rest ∧ dom <:+ rest) ∨
            (∃ rest, origin = "https://".toList ++ rest ∧ dom <:+ rest)))) ∧
    (∀ (selfD : String) (selfO : List Char) (st : BusState) (origin : List Char)
        (env : Envelope) (now : Nat), isPearsonOrigin selfO origin = false →
      processMessage selfD selfO st origin env now = ⟨st, RecvOutcome.dropOrigin, 0⟩) := by
  constructor
  · intro selfO origin
    unfold isPearsonOrigin regexTestDomain
    simp only [Bool.or_eq_true, containsSub_iff, beq_iff_eq, List.any_eq_true, schemeSplit,
      or_assoc]
  · intro selfD selfO st origin env now h
    unfold processMessage
    simp [h]

/-- Witness for the amended claim C6: an unrelated origin is rejected and the
inbound event is dropped without processing. -/
theorem c6_amended_witness :
    processMessage "A" demoSelfOrigin emptyBus "https://example.com".toList loopPathEnv 1000
      = ⟨emptyBus, RecvOutcome.dropOrigin, 0⟩ :=
  c6_amended.2 "A" demoSelfOrigin emptyBus "https://example.com".toList loopPathEnv 1000
    (by decide)

/-! ### Claim C7 -/

/-- The ping of the testable property: a `ping` send with a callback from a
fresh context. -/
def pingSend (now : Nat) (id : String) : SendResult :=
  sendCrossDomainMessage "mylab" emptyBus { action := "ping" } { hasCallback := true } now id

/-- Claim C7 (counterexample): there is no caller-specified ping timeout —
the cleanup is scheduled at a fixed 5000ms — so 150ms after a ping the
pending-request table still holds the entry, refuting "the pending-request
state is empty 150ms later". -/
theorem c7_counterexample :
    (runPingCleanup (pingSend 1000 "p1").state (pingSend 1000 "p1").pingCleanup 1150).pendingPings
        = [("p1", 1000)] ∧
    ¬ (runPingCleanup (pingSend 1000 "p1").state
        (pingSend 1000 "p1").pingCleanup 1150).pendingPings = [] := by decide

/-- Claim C7 (amended): for a ping sent at time `now` with a callback and no
responder, the pending entry is purged exactly when the fixed 5000ms cleanup
fires (the table is empty at `t` iff `now + 5000 ≤ t`, so it is still
non-empty 150ms after the send), and no inbound event other than a `pong`
ever invokes the callback. -/
theorem c7_amended (now t : Nat) (id : String) (h : 500 ≤ now) :
    ((runPingCleanup (pingSend now id).state (pingSend now id).pingCleanup t).pendingPings = []
      ↔ now + 5000 ≤ t) ∧
    (∀ (selfD : String) (selfO origin : List Char) (env : Envelope) (now2 : Nat),
      env.action ≠ "pong" →
      (processMessage selfD selfO (pingSend now id).state origin env now2).invoked = 0) := by
  have hL := sendFromEmpty "mylab" { action := "ping" } { hasCallback := true } now id
    (Or.inr h)
  constructor
  · unfold pingSend
    rw [hL]
    simp only [show (("ping" : String) == "ping"
        && SendOptions.hasCallback { hasCallback := true }) = true from rfl, if_true]
    unfold runPingCleanup
    by_cases ht : now + 5000 ≤ t
    · simp [ht, eraseA]
    · simp [ht]
  · intro selfD selfO origin env now2 hne
    exact invoked_zero_of_not_pong _ _ _ _ _ _ hne

/-- Witness for the amended claim C7: at t = 1150 the entry is still pending
(5850 < 6000), at t = 6000 it is purged, and a non-pong event invokes no
callback. -/
theorem c7_amended_witness :
    ((runPingCleanup (pingSend 1000 "p1").state (pingSend 1000 "p1").pingCleanup 6000).pendingPings
        = [] ↔ 1000 + 5000 ≤ 6000) ∧
    (processMessage "A" demoSelfOrigin (pingSend 1000 "p1").state demoSelfOrigin loopPathEnv
        2000).invoked = 0 :=
  ⟨(c7_amended 1000 6000 "p1" (by decide)).1,
    (c7_amended 1000 6000 "p1" (by decide)).2 "A" demoSelfOrigin demoSelfOrigin loopPathEnv
      2000 (by decide)⟩

/-! ### Claim C8 -/

/-- Recording a received id does not touch the pending-ping table. -/
theorem recordReceived_pendingPings (st : BusState) (mid : Option String) :
    (recordReceived st mid).pendingPings = st.pendingPings := by
  cases mid <;> rfl

/-- If the envelope's `replyTo` has no pending entry, no callback is
invoked, whatever else the pipeline does with the envelope. -/
theorem invoked_zero_of_replyTo_absent (selfD : String) (selfO : List Char) (st : BusState)
    (origin : List Char) (env : Envelope) (now : Nat)
    (h : ∀ r, env.replyTo = some r → lookupA st.pendingPings r = none) :
    (processMessage selfD selfO st origin env now).invoked = 0 := by
  unfold processMessage
  split
  · rfl
  split
  · rfl
  split
  · rfl
  split
  · rfl
  split
  · rfl
  show (dispatchPong (recordReceived st env.messageId) env).2 = 0
  unfold dispatchPong
  split
  · cases henv : env.replyTo with
    | none => simp
    | some r =>
      have hr := h r henv
      simp [henv, recordReceived_pendingPings, hr]
  · rfl

/-- Claim C8: a pong whose `replyTo` matches an outstanding ping invokes the
callback exactly once and clears the pending entry; afterwards any further
pong carrying the same `replyTo` (whatever its id, payload, path or
timestamp) invokes no callback, because the entry is gone. -/
theorem c8_pong_exactly_once (selfD : String) (selfO origin : List Char) (st : BusState)
    (rid m1 : String) (ts : Nat) (fromp : String) (tstamp now1 : Nat)
    (m2opt : Option String) (en2 hq2 : Option Bool) (fromp2 : String) (tstamp2 now2 : Nat)
    (path2 : Option (List String)) (fb2 : Bool)
    (horig : isPearsonOrigin selfO origin = true)
    (hpend : lookupA st.pendingPings rid = some ts)
    (hm1r : m1 ∉ st.receivedMessageIds)
    (hm1s : m1 ∉ st.sentMessageIds) :
    (processMessage selfD selfO st origin
        ⟨protocolTag, "pong", none, none, some m1, fromp, tstamp, none, some rid, false⟩
        now1).invoked = 1 ∧
    lookupA (processMessage selfD selfO st origin
        ⟨protocolTag, "pong", none, none, some m1, fromp, tstamp, none, some rid, false⟩
        now1).state.pendingPings rid = none ∧
    (processMessage selfD selfO
        (processMessage selfD selfO st origin
          ⟨protocolTag, "pong", none, none, some m1, fromp, tstamp, none, some rid, false⟩
          now1).state origin
        ⟨protocolTag, "pong", en2, hq2, m2opt, fromp2, tstamp2, path2, some rid, fb2⟩
        now2).invoked = 0 := by
  have hdup1 : isDupReceived st (some m1) = false := by
    simp [isDupReceived, hm1r]
  have h1 : processMessage selfD selfO st origin
      ⟨protocolTag, "pong", none, none, some m1, fromp, tstamp, none, some rid, false⟩ now1
      = ⟨{ st with pendingPings := eraseA st.pendingPings rid, receivedMessageIds := keepLast 100 (st.receivedMessageIds ++ [m1]) }, RecvOutcome.dispatched "pong", 1⟩ := by
    unfold processMessage
    simp [horig, hdup1, loopDetectedRecv, isEchoOfOwn, recordReceived, hm1s, dispatchPong,
      hpend]
  rw [h1]
  refine ⟨rfl, lookupA_eraseA st.pendingPings rid, ?_⟩
  apply invoked_zero_of_replyTo_absent
  intro r hr
  have hr' : rid = r := by
    simpa using hr
  subst hr'
  exact lookupA_eraseA st.pendingPings rid

/-- A concrete bus state with one outstanding ping, for the C8 witness. -/
def pendingOneState : BusState :=
  { emptyBus with pendingPings := [("r1", 500)] }

/-- Witness for claim C8: concrete pong at a context holding one pending
ping, followed by a second pong with the same `replyTo`. -/
theorem c8_witness :
    (processMessage "A" demoSelfOrigin pendingOneState demoSelfOrigin
        ⟨protocolTag, "pong", none, none, some "m1", "B", 900, none, some "r1", false⟩
        1000).invoked = 1 ∧
    lookupA (processMessage "A" demoSelfOrigin pendingOneState demoSelfOrigin
        ⟨protocolTag, "pong", none, none, some "m1", "B", 900, none, some "r1", false⟩
        1000).state.pendingPings "r1" = none ∧
    (processMessage "A" demoSelfOrigin
        (processMessage "A" demoSelfOrigin pendingOneState demoSelfOrigin
          ⟨protocolTag, "pong", none, none, some "m1", "B", 900, none, some "r1", false⟩
          1000).state demoSelfOrigin
        ⟨protocolTag, "pong", none, none, some "m2", "B", 950, none, some "r1", false⟩
        1100).invoked = 0 :=
  c8_pong_exactly_once "A" demoSelfOrigin demoSelfOrigin pendingOneState "r1" "m1" 500 "B"
    900 1000 (some "m2") none none "B" 950 1100 none false
    (by decide) (by decide) (by decide) (by decide)

/-! ### Claim C1 -/

/-- A duplicate messageId short-circuits the `'message'` listener. -/
theorem processMessage_dropDuplicate (selfD : String) (selfO : List Char) (st : BusState)
    (origin : List Char) (env : Envelope) (now : Nat)
    (horig : isPearsonOrigin selfO origin = true)
    (hsrc : env.source = protocolTag)
    (hdup : isDupReceived st env.messageId = true) :
    processMessage selfD selfO st origin env now = ⟨st, RecvOutcome.dropDuplicate, 0⟩ := by
  unfold processMessage
  simp [horig, hsrc, hdup]

/-- The echo branch of the `'message'` listener. -/
theorem processMessage_dropEcho (selfD : String) (selfO : List Char) (st : BusState)
    (origin : List Char) (env : Envelope) (now : Nat)
    (horig : isPearsonOrigin selfO origin = true)
    (hsrc : env.source = protocolTag)
    (hdup : isDupReceived st env.messageId = false)
    (hl : loopDetectedRecv selfD env.path = false)
    (he : isEchoOfOwn selfD (recordReceived st env.messageId) env now = true) :
    processMessage selfD selfO st origin env now
      = ⟨recordReceived st env.messageId, RecvOutcome.dropEcho, 0⟩ := by
  unfold processMessage
  simp [horig, hsrc, hdup, hl, he]

/-- The dispatch branch of the `'message'` listener. -/
theorem processMessage_dispatched (selfD : String) (selfO : List Char) (st : BusState)
    (origin : List Char) (env : Envelope) (now : Nat)
    (horig : isPearsonOrigin selfO origin = true)
    (hsrc : env.source = protocolTag)
    (hdup : isDupReceived st env.messageId = false)
    (hl : loopDetectedRecv selfD env.path = false)
    (he : isEchoOfOwn selfD (recordReceived st env.messageId) env now = false) :
    processMessage selfD selfO st origin env now
      = ⟨(dispatchPong (recordReceived st env.messageId) env).1, RecvOutcome.dispatched env.action,
          (dispatchPong (recordReceived st env.messageId) env).2⟩ := by
  unfold processMessage
  simp [horig, hsrc, hdup, hl, he]

/-- The pong handler never touches the receive-dedup record. -/
theorem dispatchPong_receivedMessageIds (st : BusState) (env : Envelope) :
    (dispatchPong st env).1.receivedMessageIds = st.receivedMessageIds := by
  unfold dispatchPong
  split
  · cases henv : env.replyTo with
    | none => rfl
    | some r =>
      cases hlk : lookupA st.pendingPings r with
      | none => simp [hlk]
      | some ts => simp [hlk]
  · rfl

/-- A protocol-tagged envelope from a trusted origin always leaves its
messageId in the receive-dedup record, whatever the processing outcome. -/
theorem processMessage_records_id (selfD : String) (selfO : List Char) (st : BusState)
    (origin : List Char) (env : Envelope) (now : Nat) (m : String)
    (horig : isPearsonOrigin selfO origin = true)
    (hsrc : env.source = protocolTag)
    (hm : env.messageId = some m) :
    m ∈ (processMessage selfD selfO st origin env now).state.receivedMessageIds := by
  have hrec : m ∈ (recordReceived st env.messageId).receivedMessageIds := by
    rw [hm]
    exact mem_keepLast_append 100 (by norm_num) _ _
  by_cases hdup : isDupReceived st env.messageId = true
  · rw [processMessage_dropDuplicate selfD selfO st origin env now horig hsrc hdup]
    rw [hm] at hdup
    simpa [isDupReceived] using hdup
  · have hdup' : isDupReceived st env.messageId = false := by simpa using hdup
    by_cases hl : loopDetectedRecv selfD env.path = true
    · rw [processMessage_dropLoop selfD selfO st origin env now horig hsrc hdup' hl]
      exact hrec
    · have hl' : loopDetectedRecv selfD env.path = false := by simpa using hl
      by_cases he : isEchoOfOwn selfD (recordReceived st env.messageId) env now = true
      · rw [processMessage_dropEcho selfD selfO st origin env now horig hsrc hdup' hl' he]
        exact hrec
      · have he' : isEchoOfOwn selfD (recordReceived st env.messageId) env now = false := by
          simpa using he
        rw [processMessage_dispatched selfD selfO st origin env now horig hsrc hdup' hl' he']
        show m ∈ (dispatchPong (recordReceived st env.messageId) env).1.receivedMessageIds
        rw [dispatchPong_receivedMessageIds]
        exact hrec

/-- The `'storage'` dispatch switch never touches the listener state. -/
theorem dispatchStorage_fst (st : StorageState) (env : Envelope) :
    (dispatchStorage st env).1 = st := by
  unfold dispatchStorage
  split <;> rfl

/-- A known signature short-circuits the `'storage'` listener. -/
theorem processStorage_dupSignature (sst : StorageState) (key : List Char) (env : Envelope)
    (now : Nat) (hkey : storageKeyTag.isPrefixOf key = true)
    (hsrc : env.source = protocolTag)
    (hdup : sst.processedStorageMessages.contains (storageSignature env key) = true) :
    processStorageMessage sst key env now = (sst, StorageOutcome.dupSignature) := by
  have hmem : storageSignature env key ∈ sst.processedStorageMessages := by
    simpa using hdup
  unfold processStorageMessage
  simp [hkey, hsrc, hmem]

/-- A protocol-tagged envelope under our key marker always leaves its
signature in the `'storage'` listener's dedup set, whatever the outcome. -/
theorem processStorage_records_sig (sst : StorageState) (key : List Char) (env : Envelope)
    (now : Nat) (hkey : storageKeyTag.isPrefixOf key = true)
    (hsrc : env.source = protocolTag) :
    storageSignature env key
      ∈ (processStorageMessage sst key env now).1.processedStorageMessages := by
  have hrec : storageSignature env key
      ∈ (recordStorageSig sst (storageSignature env key)).processedStorageMessages :=
    mem_keepLast_append 100 (by norm_num) _ _
  by_cases hdup : sst.processedStorageMessages.contains (storageSignature env key) = true
  · rw [processStorage_dupSignature sst key env now hkey hsrc hdup]
    simpa using hdup
  · have hdup' : sst.processedStorageMessages.contains (storageSignature env key) = false := by
      simpa using hdup
    unfold processStorageMessage
    simp only [hkey, Bool.not_true, Bool.false_eq_true, if_false, hsrc, beq_self_eq_true,
      hdup']
    by_cases hrl : now - lookupAD sst.lastStorageMessageTimes (actionKeyOf env.action) < 1000
    · simp [hrl, hrec]
    · simp only [hrl, if_false]
      cases hp : env.path with
      | none => simpa [dispatchStorage_fst, bumpStorageTime] using hrec
      | some p =>
        by_cases hlen : p.length > 3
        · simp [hlen, bumpStorageTime, hrec]
        · simp [hlen, dispatchStorage_fst, bumpStorageTime, hrec]

/-- The `(action, payload)` data of the cross-channel runs. -/
def updateStatusData : SendData := { action := "updateStatus", enabled := some true }

/-- A localStorage key carrying the protocol's key marker. -/
def demoStorageKey : List Char := "pearson_ai_solver_msg_5000_x".toList

/-- Claim C1 (counterexample): a single logical `updateStatus` send posts the
same messageId `m1` over the postMessage channel and the localStorage
fallback channel; a receiving context dispatches the postMessage copy and
records `m1` in its receive-dedup record, yet the `'storage'` listener —
whose dedup set is a separate closure-local structure — still dispatches the
localStorage copy.  The envelope is therefore delivered to handlers twice,
refuting "dispatches it to handlers exactly once ... suppressed by the
messageId-based dedup record shared across both inbound channels". -/
theorem c1_counterexample :
    (sendWithFallback "mylab" emptyBus updateStatusData {} 5000 "m1" demoStorageKey).posted
        = some (primaryEnvelope "mylab" updateStatusData 5000 "m1") ∧
    (sendWithFallback "mylab" emptyBus updateStatusData {} 5000 "m1" demoStorageKey).storagePosted
        = some (demoStorageKey, fallbackEnvelope "mylab" updateStatusData 5000 "m1") ∧
    (fallbackEnvelope "mylab" updateStatusData 5000 "m1").messageId
        = (primaryEnvelope "mylab" updateStatusData 5000 "m1").messageId ∧
    (processMessage "pearson-other" demoSelfOrigin emptyBus demoSelfOrigin
        (primaryEnvelope "mylab" updateStatusData 5000 "m1") 5100).outcome
        = RecvOutcome.dispatched "updateStatus" ∧
    "m1" ∈ (processMessage "pearson-other" demoSelfOrigin emptyBus demoSelfOrigin
        (primaryEnvelope "mylab" updateStatusData 5000 "m1") 5100).state.receivedMessageIds ∧
    (processStorageMessage emptyStorage demoStorageKey
        (fallbackEnvelope "mylab" updateStatusData 5000 "m1") 5150).2
        = StorageOutcome.dispatched "updateStatus" := by decide

/-- Claim C1 (amended): deduplication is per channel, not shared.  On the
postMessage channel a replay of an envelope already processed there is
dropped as a duplicate; on the localStorage channel a replay of an envelope
already processed there is dropped by its signature set; but an envelope
arriving once on each channel is dispatched once per channel, as in the
concrete third conjunct (primary copy dispatched and recorded, storage copy
dispatched nevertheless). -/
theorem c1_amended :
    (∀ (selfD : String) (selfO origin : List Char) (st : BusState) (env : Envelope)
        (now now' : Nat) (m : String),
      isPearsonOrigin selfO origin = true → env.source = protocolTag →
      env.messageId = some m →
      (processMessage selfD selfO (processMessage selfD selfO st origin env now).state
          origin env now').outcome = RecvOutcome.dropDuplicate) ∧
    (∀ (sst : StorageState) (key : List Char) (env : Envelope) (now now' : Nat),
      storageKeyTag.isPrefixOf key = true → env.source = protocolTag →
      (processStorageMessage (processStorageMessage sst key env now).1 key env now').2
        = StorageOutcome.dupSignature) ∧
    ((processMessage "pearson-other" demoSelfOrigin emptyBus demoSelfOrigin
        (primaryEnvelope "mylab" updateStatusData 9000 "m9") 9100).outcome
        = RecvOutcome.dispatched "updateStatus" ∧
      (processStorageMessage emptyStorage demoStorageKey
        (fallbackEnvelope "mylab" updateStatusData 9000 "m9") 9150).2
        = StorageOutcome.dispatched "updateStatus") := by
  refine ⟨?_, ?_, by decide⟩
  · intro selfD selfO origin st env now now' m horig hsrc hm
    have hmem := processMessage_records_id selfD selfO st origin env now m horig hsrc hm
    have hdup2 : isDupReceived (processMessage selfD selfO st origin env now).state
        env.messageId = true := by
      rw [hm]
      simpa [isDupReceived] using hmem
    rw [processMessage_dropDuplicate selfD selfO _ origin env now' horig hsrc hdup2]
  · intro sst key env now now' hkey hsrc
    have hmem := processStorage_records_sig sst key env now hkey hsrc
    have hdup2 : (processStorageMessage sst key env now).1.processedStorageMessages.contains
        (storageSignature env key) = true := by
      simpa using hmem
    rw [processStorage_dupSignature _ key env now' hkey hsrc hdup2]

/-- Witness for the amended claim C1: a concrete replay on each channel is
suppressed by that channel's own record. -/
theorem c1_amended_witness :
    (processMessage "A" demoSelfOrigin
        (processMessage "A" demoSelfOrigin emptyBus demoSelfOrigin loopPathEnv 2000).state
        demoSelfOrigin loopPathEnv 2100).outcome = RecvOutcome.dropDuplicate ∧
    (processStorageMessage
        (processStorageMessage emptyStorage demoStorageKey
          (fallbackEnvelope "mylab" updateStatusData 5000 "m1") 5150).1
        demoStorageKey (fallbackEnvelope "mylab" updateStatusData 5000 "m1") 5250).2
      = StorageOutcome.dupSignature :=
  ⟨c1_amended.1 "A" demoSelfOrigin demoSelfOrigin emptyBus loopPathEnv 2000 2100 "m1"
      (by decide) rfl rfl,
    c1_amended.2.1 emptyStorage demoStorageKey
      (fallbackEnvelope "mylab" updateStatusData 5000 "m1") 5150 5250 (by decide) rfl⟩

/-! ### Claim C10 -/

/-- Claim C10: a send with the retry option schedules a re-invocation whose
options have one fewer attempt and both `skipDuplicateCheck` and
`skipRateLimiting` set; the re-invocation, made with a freshly generated id,
succeeds and posts an envelope carrying that fresh id; and a receiving
context, having dispatched the original envelope (recording its id),
dispatches the retry's envelope as well, since its distinct messageId defeats
the receive-side dedup. -/
theorem c10_retry_fresh_ids (d : SendData) (rc rd now trec trec2 : Nat) (id1 id2 : String)
    (h500 : 500 ≤ now) (hpath : d.path = none) (hid : id2 ≠ id1) :
    (sendCrossDomainMessage "mylab" emptyBus d
        { retry := true, retryCount := rc + 1, retryDelay := rd } now id1).result = some id1 ∧
    (sendCrossDomainMessage "mylab" emptyBus d
        { retry := true, retryCount := rc + 1, retryDelay := rd } now id1).retrySched
      = some ({ retry := true, retryCount := rc, retryDelay := rd, hasCallback := false, skipDuplicateCheck := true, skipRateLimiting := true }, rd) ∧
    (sendCrossDomainMessage "mylab"
        (sendCrossDomainMessage "mylab" emptyBus d
          { retry := true, retryCount := rc + 1, retryDelay := rd } now id1).state d
        (retryOptions { retry := true, retryCount := rc + 1, retryDelay := rd })
        (now + rd) id2).result = some id2 ∧
    (sendCrossDomainMessage "mylab"
        (sendCrossDomainMessage "mylab" emptyBus d
          { retry := true, retryCount := rc + 1, retryDelay := rd } now id1).state d
        (retryOptions { retry := true, retryCount := rc + 1, retryDelay := rd })
        (now + rd) id2).posted = some (primaryEnvelope "mylab" d (now + rd) id2) ∧
    (processMessage "pearson-other" demoSelfOrigin emptyBus demoSelfOrigin
        (primaryEnvelope "mylab" d now id1) trec).outcome
      = RecvOutcome.dispatched d.action ∧
    (processMessage "pearson-other" demoSelfOrigin
        (processMessage "pearson-other" demoSelfOrigin emptyBus demoSelfOrigin
          (primaryEnvelope "mylab" d now id1) trec).state demoSelfOrigin
        (primaryEnvelope "mylab" d (now + rd) id2) trec2).outcome
      = RecvOutcome.dispatched d.action := by
  have hL := sendFromEmpty "mylab" d { retry := true, retryCount := rc + 1, retryDelay := rd }
    now id1 (Or.inr h500)
  have horig : isPearsonOrigin demoSelfOrigin demoSelfOrigin = true := by decide
  have hsrc1 : (primaryEnvelope "mylab" d now id1).source = protocolTag := rfl
  have hsrc2 : (primaryEnvelope "mylab" d (now + rd) id2).source = protocolTag := rfl
  have hdup1 : isDupReceived emptyBus (primaryEnvelope "mylab" d now id1).messageId = false := by
    simp [isDupReceived, primaryEnvelope, emptyBus]
  have hl1 : loopDetectedRecv "pearson-other" (primaryEnvelope "mylab" d now id1).path
      = false := by
    simp [loopDetectedRecv, primaryEnvelope, hpath, keepLast]
  have hl2 : loopDetectedRecv "pearson-other" (primaryEnvelope "mylab" d (now + rd) id2).path
      = false := by
    simp [loopDetectedRecv, primaryEnvelope, hpath, keepLast]
  have hecho1 : ∀ (st : BusState) (t : Nat),
      isEchoOfOwn "pearson-other" st (primaryEnvelope "mylab" d now id1) t = false := by
    intro st t
    simp [isEchoOfOwn, primaryEnvelope]
  have hecho2 : ∀ (st : BusState) (t : Nat),
      isEchoOfOwn "pearson-other" st (primaryEnvelope "mylab" d (now + rd) id2) t = false := by
    intro st t
    simp [isEchoOfOwn, primaryEnvelope]
  have hp1 := processMessage_dispatched "pearson-other" demoSelfOrigin emptyBus demoSelfOrigin
    (primaryEnvelope "mylab" d now id1) trec horig hsrc1 hdup1 hl1 (hecho1 _ _)
  have hdup2 : isDupReceived
      (processMessage "pearson-other" demoSelfOrigin emptyBus demoSelfOrigin
        (primaryEnvelope "mylab" d now id1) trec).state
      (primaryEnvelope "mylab" d (now + rd) id2).messageId = false := by
    rw [hp1]
    show isDupReceived _ (some id2) = false
    simp only [isDupReceived]
    rw [show ((dispatchPong (recordReceived emptyBus (primaryEnvelope "mylab" d now id1).messageId) (primaryEnvelope "mylab" d now id1)).1).receivedMessageIds = (recordReceived emptyBus (primaryEnvelope "mylab" d now id1).messageId).receivedMessageIds from dispatchPong_receivedMessageIds _ _]
    simp [recordReceived, primaryEnvelope, emptyBus, keepLast, hid]
  have hp2 := processMessage_dispatched "pearson-other" demoSelfOrigin
    (processMessage "pearson-other" demoSelfOrigin emptyBus demoSelfOrigin
      (primaryEnvelope "mylab" d now id1) trec).state demoSelfOrigin
    (primaryEnvelope "mylab" d (now + rd) id2) trec2 horig hsrc2 hdup2 hl2 (hecho2 _ _)
  refine ⟨?_, ?_, ?_, ?_, ?_, ?_⟩
  · rw [hL]
  · rw [hL]
    simp [retryOptions]
  · exact (send_skip_both "mylab" _ d
      (retryOptions { retry := true, retryCount := rc + 1, retryDelay := rd })
      (now + rd) id2 rfl rfl).1
  · exact (send_skip_both "mylab" _ d
      (retryOptions { retry := true, retryCount := rc + 1, retryDelay := rd })
      (now + rd) id2 rfl rfl).2
  · rw [hp1]
    rfl
  · rw [hp2]
    rfl

/-- Witness for claim C10: concrete retry run with distinct ids. -/
theorem c10_witness :
    (sendCrossDomainMessage "mylab" emptyBus updateStatusData
        { retry := true, retryCount := 2, retryDelay := 500 } 1000 "i1").result = some "i1" ∧
    (sendCrossDomainMessage "mylab" emptyBus updateStatusData
        { retry := true, retryCount := 2, retryDelay := 500 } 1000 "i1").retrySched
      = some ({ retry := true, retryCount := 1, retryDelay := 500, hasCallback := false, skipDuplicateCheck := true, skipRateLimiting := true }, 500) ∧
    (sendCrossDomainMessage "mylab"
        (sendCrossDomainMessage "mylab" emptyBus updateStatusData
          { retry := true, retryCount := 2, retryDelay := 500 } 1000 "i1").state updateStatusData
        (retryOptions { retry := true, retryCount := 2, retryDelay := 500 })
        (1000 + 500) "i2").result = some "i2" ∧
    (sendCrossDomainMessage "mylab"
        (sendCrossDomainMessage "mylab" emptyBus updateStatusData
          { retry := true, retryCount := 2, retryDelay := 500 } 1000 "i1").state updateStatusData
        (retryOptions { retry := true, retryCount := 2, retryDelay := 500 })
        (1000 + 500) "i2").posted
      = some (primaryEnvelope "mylab" updateStatusData (1000 + 500) "i2") ∧
    (processMessage "pearson-other" demoSelfOrigin emptyBus demoSelfOrigin
        (primaryEnvelope "mylab" updateStatusData 1000 "i1") 1500).outcome
      = RecvOutcome.dispatched updateStatusData.action ∧
    (processMessage "pearson-other" demoSelfOrigin
        (processMessage "pearson-other" demoSelfOrigin emptyBus demoSelfOrigin
          (primaryEnvelope "mylab" updateStatusData 1000 "i1") 1500).state demoSelfOrigin
        (primaryEnvelope "mylab" updateStatusData (1000 + 500) "i2") 2000).outcome
      = RecvOutcome.dispatched updateStatusData.action :=
  c10_retry_fresh_ids updateStatusData 1 500 1000 1500 2000 "i1" "i2"
    (by decide) (by decide) (by decide)

/-! ### Claim C9 -/

/-- Eleven sends of one action recorded within one second (all timestamps at
t = 1000). -/
def elevenStats : List (StatKey × ActionStat) :=
  (List.replicate 11 1000).foldl (fun s t => recordMessageStat s "sent" "analyzeQuestion" t) []

/-- The statistics cell produced by eleven recorded sends. -/
theorem elevenStats_eq :
    elevenStats = [(("sent", "analyzeQuestion"), ⟨11, List.replicate 11 1000⟩)] := by decide

/-- The rate a report computes for the eleven-send cell. -/
theorem elevenStats_rate :
    messageRate (statOf elevenStats ("sent", "analyzeQuestion")) 1000 = 11 / 5 := by
  have hstat : statOf elevenStats ("sent", "analyzeQuestion")
      = (⟨11, List.replicate 11 1000⟩ : ActionStat) := by decide
  have hrc : recentCount (⟨11, List.replicate 11 1000⟩ : ActionStat) 1000 = 11 := by decide
  rw [hstat, messageRate, hrc]
  norm_num

/-- The flow rating after eleven sends within one second and no loops. -/
theorem elevenStats_rating : analyzeFlowRating elevenStats 0 1000 = FlowRating.normal := by
  have hrc : recentCount (⟨11, List.replicate 11 1000⟩ : ActionStat) 1000 = 11 := by decide
  rw [elevenStats_eq]
  unfold analyzeFlowRating
  simp only [List.foldl_cons, List.foldl_nil]
  unfold ratingStep messageRate
  rw [hrc]
  norm_num

/-- Claim C9 (counterexample): after 11 sends of one action within 1 second,
the report's rate for that cell over the last 5 seconds is 11/5 = 2.2/s —
not greater than 10/s — and the flow analysis returns `normal`, not
`problematic`, refuting the claim. -/
theorem c9_counterexample :
    messageRate (statOf elevenStats ("sent", "analyzeQuestion")) 1000 = 11 / 5 ∧
    ¬ (10 < messageRate (statOf elevenStats ("sent", "analyzeQuestion")) 1000) ∧
    analyzeFlowRating elevenStats 0 1000 = FlowRating.normal := by
  refine ⟨elevenStats_rate, ?_, elevenStats_rating⟩
  rw [elevenStats_rate]
  norm_num

/-- Claim C9 (amended): 11 sends of one action within 1 second yield a rate
of 11/5 = 2.2/s and the flow rating `normal`.  Moreover the rate can never
exceed 10/s: each cell retains at most 50 timestamps (the recording trim
preserves that bound), and at most 50 recent timestamps over a 5-second
window bound the rate by 10/s — so a `problematic` rating only ever arises
from the circular-path check, which forces it whenever more than 5 loops are
recorded. -/
theorem c9_amended :
    (messageRate (statOf elevenStats ("sent", "analyzeQuestion")) 1000 = 11 / 5 ∧
      analyzeFlowRating elevenStats 0 1000 = FlowRating.normal) ∧
    (∀ (ts : List Nat) (now : Nat), ts.length ≤ 50 → (recordTimestamps ts now).length ≤ 50) ∧
    (∀ (st : ActionStat) (now : Nat), st.timestamps.length ≤ 50 →
      ¬ (10 < messageRate st now)) ∧
    (∀ (s : List (StatKey × ActionStat)) (loopCount now : Nat), 5 < loopCount →
      analyzeFlowRating s loopCount now = FlowRating.problematic) := by
  refine ⟨⟨elevenStats_rate, elevenStats_rating⟩, ?_, ?_, ?_⟩
  · intro ts now h
    show (if (ts ++ [now]).length > 50 then List.drop 1 (ts ++ [now])
        else ts ++ [now]).length ≤ 50
    by_cases hlen : (ts ++ [now]).length > 50
    · rw [if_pos hlen]
      simp only [List.length_drop, List.length_append, List.length_singleton]
      omega
    · rw [if_neg hlen]
      simp only [List.length_append, List.length_singleton] at hlen ⊢
      omega
  · intro st now h
    have hrc : recentCount st now ≤ 50 :=
      le_trans (List.length_filter_le _ _) h
    have hq : ((recentCount st now : ℚ)) ≤ 50 := by exact_mod_cast hrc
    have hle : messageRate st now ≤ 10 := by
      rw [messageRate, div_le_iff₀ (by norm_num : (0 : ℚ) < 5)]
      linarith
    exact not_lt.mpr hle
  · intro s loopCount now h
    unfold analyzeFlowRating
    simp [h]

/-- Witness for the amended claim C9: the trim bound, the rate cap and the
loop-forced rating at concrete inputs. -/
theorem c9_amended_witness :
    (recordTimestamps (List.replicate 50 7) 8).length ≤ 50 ∧
    ¬ (10 < messageRate ⟨50, List.replicate 50 7⟩ 9) ∧
    analyzeFlowRating [] 6 0 = FlowRating.problematic :=
  ⟨c9_amended.2.1 (List.replicate 50 7) 8 (by decide),
    c9_amended.2.2.1 ⟨50, List.replicate 50 7⟩ 9 (by decide),
    c9_amended.2.2.2 [] 6 0 (by decide)⟩

example : containsSub "ab".toList "xxaby".toList = true := by decide
example : containsSub "ab".toList "xaxb".toList = false := by decide
example : isPearsonOrigin "https://x.y".toList "https://evilpearson.com".toList = true := by
  decide
example : specTrustedOrigin "https://x.y".toList "https://evilpearson.com".toList = false := by
  decide
example : isPearsonOrigin "https://x.y".toList "https://mylab.pearson.com".toList = true := by
  decide
example :
    (sendCrossDomainMessage "mylab" emptyBus { action := "updateStatus" } {} 1000 "m1").result
      = some "m1" := by decide
example :
    (sendCrossDomainMessage "mylab" emptyBus { action := "updateStatus" } {} 100 "m1").result
      = none := by decide
